import Mathlib

/-!
# go-boilerplate: health aggregation and the HTTP dispatcher

A shallow embedding of `internal/usecase/health/service.go` and
`internal/adapter/httpserver/router.go`, with the part of `net/http`'s
`ServeMux` that decides which handler of the router runs.

Conventions of the embedding.
* Go's `error` is `Option String`: `none` is the nil error, `some msg` an
  error whose `Error()` text is `msg`.
* A Go `map[string]any` is `GoMap`: `none` is the nil map, `some kv` a map
  holding the association list `kv`.
* A call that panics has no result: `none` in `health`, the flag `panicked`
  in the dispatcher.
* Results of calls that leave the process (the HTTP probe, the store, the
  JSON decoder reading the request body) and the verdict of the library's
  URL parser are inputs of the model.
* `http.ResponseWriter` is a record: the header map handed out by
  `Header()`, the status once written, the header as it stood when the
  status was written, and the values written into the body.
-/

namespace health

/-- `health.Response`. -/
structure Response where
  OK : Bool
  Message : String
  LocalStack : String
  deriving DecidableEq, Repr

/-- Modelled from the spec: `port.DynamoDBPort` (package `internal/port`), of
which the health service uses the liveness probe `Health(ctx) error` only. -/
structure DynamoDBPort where
  Health : Option String

/-- Outcome of `client.Do(req)` for a request that was built: a transport
error, or a response with its status code. -/
inductive DoResult where
  | failed (err : String)
  | response (StatusCode : Int)
  deriving DecidableEq, Repr

/-- The `service` struct; `log` records whether a logger was injected (its
calls do not influence the result). `NewRequest url` tells whether
`http.NewRequestWithContext` returns a request for `url`: it returns nil and
an error when `url` does not parse as a URL. `Do` is the HTTP client of
`checkLocalstack`, keyed by the URL requested. -/
structure service where
  localstackEndpoint : String
  ddb : Option DynamoDBPort
  log : Bool
  NewRequest : String → Bool
  Do : String → DoResult

/-- `(*service).checkLocalstack`. The error of `NewRequestWithContext` is
discarded, so when no request was built `client.Do` is handed a nil request
and panics on it: the result is then `none`. -/
def service.checkLocalstack (s : service) : Option (Bool × String) :=
  if s.localstackEndpoint = "" then
    some (true, "")
  else
    if s.NewRequest (s.localstackEndpoint ++ "/_localstack/health") = false then
      none
    else
      match s.Do (s.localstackEndpoint ++ "/_localstack/health") with
      | .failed _ => some (false, "localstack unreachable")
      | .response code =>
        if code < 200 ∨ code ≥ 300 then
          some (false, "localstack unreachable")
        else
          some (true, "localstack ok")

/-- `(*service).checkDynamo`. -/
def service.checkDynamo (s : service) : Bool × String :=
  match s.ddb with
  | none => (true, "")
  | some ddb =>
    match ddb.Health with
    | some _ => (false, "dynamodb unreachable")
    | none => (true, "dynamodb ok")

/-- `(*service).Check`; `none` when `checkLocalstack` panicked, in which
case nothing after it runs. -/
def service.Check (s : service) : Option Response :=
  let ok := true
  let msg := "api up"
  match s.checkLocalstack with
  | none => none
  | some (okLS, msgLS) =>
    let ok := if !okLS then false else ok
    let msg := if msgLS ≠ "" then msg ++ "; " ++ msgLS else msg
    let (okDDB, msgDDB) := s.checkDynamo
    let ok := if !okDDB then false else ok
    let msg := if msgDDB ≠ "" then msg ++ "; " ++ msgDDB else msg
    some { OK := ok, Message := msg, LocalStack := s.localstackEndpoint }

/-- `NewServiceWithDeps`, with the two library calls the probe will make. -/
def NewServiceWithDeps (localstackEndpoint : String) (ddb : Option DynamoDBPort) (log : Bool)
    (NewRequest : String → Bool) (Do : String → DoResult) : service :=
  { localstackEndpoint := localstackEndpoint, ddb := ddb, log := log,
    NewRequest := NewRequest, Do := Do }

/-- `NewService`: no store port, no logger. -/
def NewService (localstackEndpoint : String) (NewRequest : String → Bool)
    (Do : String → DoResult) : service :=
  { localstackEndpoint := localstackEndpoint, ddb := none, log := false,
    NewRequest := NewRequest, Do := Do }

/-- The reachability probe succeeded: a response with a 2xx status. -/
def reachable (s : service) : Bool :=
  match s.Do (s.localstackEndpoint ++ "/_localstack/health") with
  | .failed _ => false
  | .response code => decide (200 ≤ code ∧ code < 300)

/-- The store probe succeeded. -/
def storeAlive (d : DynamoDBPort) : Bool := d.Health.isNone

/-- The spec's `HealthCheckResult`s of the configured dependencies, in the
fixed order reachability probe, store probe. Written from the spec's words. -/
def specResults (s : service) : List (Bool × String) :=
  (if s.localstackEndpoint = "" then []
   else [(reachable s, if reachable s then "localstack ok" else "localstack unreachable")]) ++
  (match s.ddb with
   | none => []
   | some d => [(storeAlive d, if storeAlive d then "dynamodb ok" else "dynamodb unreachable")])

/-- The spec's `AggregatedHealth`: the conjunction of the verdicts and the
base message followed by `"; "` and each diagnostic. Written from the spec's
words. -/
def specAggregate (rs : List (Bool × String)) : Bool × String :=
  (rs.all (fun r => r.1), rs.foldl (fun m r => m ++ "; " ++ r.2) "api up")

/-- The `health.Service` interface as the router holds it: `Check(ctx)`
returning a `Response`. -/
structure Service where
  Check : Unit → Response

end health

namespace strings

/-- `strings.HasPrefix`. -/
def HasPrefix (s pre : String) : Bool := pre.data.isPrefixOf s.data

/-- `strings.TrimPrefix`. -/
def TrimPrefix (s pre : String) : String :=
  if HasPrefix s pre then ⟨s.data.drop pre.data.length⟩ else s

/-- `strings.Contains`: `substr` occurs at some position of `s`. -/
def Contains (s substr : String) : Bool :=
  s.data.tails.any (fun t => substr.data.isPrefixOf t)

end strings

namespace strconv

/-- Value of a run of decimal digits, `none` when a character is not a digit. -/
def digits (acc : Nat) : List Char → Option Nat
  | [] => some acc
  | c :: cs =>
    if '0' ≤ c ∧ c ≤ '9' then digits (acc * 10 + (c.toNat - '0'.toNat)) cs else none

/-- `strconv.Atoi` on a platform whose `int` has 64 bits: an optional sign,
then one or more decimal digits, and the value must lie in
`[-2^63, 2^63 - 1]`; `none` is a non-nil error (syntax or range). -/
def Atoi (s : String) : Option Int :=
  let (neg, ds) :=
    match s.data with
    | '-' :: cs => (true, cs)
    | '+' :: cs => (false, cs)
    | cs => (false, cs)
  if ds = [] then none
  else
    match digits 0 ds with
    | none => none
    | some un =>
      if neg then
        if un > 2 ^ 63 then none else some (-(un : Int))
      else
        if un ≥ 2 ^ 63 then none else some (un : Int)

end strconv

/-- The conversion `int32(n)` of a machine integer: the low 32 bits, read as
a two's complement number. -/
def int32 (n : Int) : Int := (n + 2 ^ 31) % 2 ^ 32 - 2 ^ 31

namespace path

/-- The elements of a path: the runs of characters between its slashes. -/
def elements : List Char → List (List Char)
  | [] => [[]]
  | c :: cs =>
    if c = '/' then [] :: elements cs
    else
      match elements cs with
      | [] => [[c]]
      | e :: es => (c :: e) :: es

/-- The elements `path.Clean` keeps of a rooted path, `kept` being those kept
so far, last first: an empty element and `.` are dropped, `..` drops the
element before it (and itself), anything else is kept. -/
def keep (kept : List (List Char)) : List (List Char) → List (List Char)
  | [] => kept.reverse
  | e :: es =>
    if e = [] ∨ e = ['.'] then keep kept es
    else if e = ['.', '.'] then keep kept.tail es
    else keep (e :: kept) es

/-- `path.Clean` on a rooted path (one that starts with a slash), the only
kind `cleanPath` hands it: the kept elements, each after one slash, or the
root alone. -/
def Clean (p : String) : String :=
  ⟨'/' :: List.intercalate ['/'] (keep [] (elements p.data))⟩

end path

namespace http

/-- The function `cleanPath` of `net/http`: the canonical form of a request
path. It roots the path, cleans it with `path.Clean`, and puts back the
trailing slash `path.Clean` removed. (The length test of the source counts
bytes; next to `HasPrefix` counting characters is the same test.) -/
def cleanPath (p : String) : String :=
  if p = "" then "/"
  else
    let p := if p.data.head? ≠ some '/' then "/" ++ p else p
    let np := path.Clean p
    if p.data.getLast? = some '/' ∧ np ≠ "/" then
      if p.length = np.length + 1 ∧ strings.HasPrefix p np = true then p else np ++ "/"
    else np

end http

namespace httpserver

def hContentType : String := "Content-Type"
def vApplicationJSON : String := "application/json"

def MethodGet : String := "GET"
def MethodPost : String := "POST"
def MethodPut : String := "PUT"
def MethodDelete : String := "DELETE"

def StatusOK : Nat := 200
def StatusCreated : Nat := 201
def StatusNoContent : Nat := 204
def StatusTemporaryRedirect : Nat := 307
def StatusBadRequest : Nat := 400
def StatusNotFound : Nat := 404
def StatusMethodNotAllowed : Nat := 405
def StatusInternalServerError : Nat := 500
def StatusServiceUnavailable : Nat := 503

/-- A Go value of type `any` as JSON produces it. -/
inductive Any where
  | null
  | bool (b : Bool)
  | num (n : Int)
  | str (s : String)
  | arr (xs : List Any)
  | obj (kv : List (String × Any))

/-- A `map[string]any`: `none` is the nil map. -/
abbrev GoMap := Option (List (String × Any))

/-- Store `v` under `k` in the entries of a non-nil map. -/
def assignKV (k : String) (v : Any) : List (String × Any) → List (String × Any)
  | [] => [(k, v)]
  | (k', v') :: rest => if k' = k then (k, v) :: rest else (k', v') :: assignKV k v rest

/-- The read `m[k]`; a nil map reads as empty. -/
def GoMap.lookup (m : GoMap) (k : String) : Option Any :=
  match m with
  | none => none
  | some kv => (kv.find? (fun e => e.1 = k)).map (fun e => e.2)

/-- The assignment `m[k] = v`; on a nil map Go panics (assignment to entry
in nil map), rendered as `none`. -/
def GoMap.assign (m : GoMap) (k : String) (v : Any) : Option GoMap :=
  match m with
  | none => none
  | some kv => some (some (assignKV k v kv))

/-- What `json.NewDecoder(req.Body).Decode(&item)` leaves for a nil
`item map[string]any`: an error, or the decoded `item` (still nil when the
body is the JSON literal `null`). -/
inductive DecodeResult where
  | failed (err : String)
  | value (item : GoMap)

/-- The part of `*http.Request` the mux and the handlers read. `Path` is
`req.URL.Path`, `Query` the pairs of `req.URL.Query()` in order, `Body` the
outcome of decoding the body into an item. The request URL is taken to be
written without percent-escapes, so that the path the mux canonicalises and
matches (`req.URL.EscapedPath()`, element by element) is `Path` itself. -/
structure Request where
  Method : String
  Path : String
  Query : List (String × String)
  Body : DecodeResult

/-- `url.Values.Get`: the first value under `key`, else the empty string. -/
def Request.QueryGet (req : Request) (key : String) : String :=
  match req.Query.find? (fun e => e.1 = key) with
  | some e => e.2
  | none => ""

/-- The `ExampleService` interface. -/
structure ExampleService where
  Create : GoMap → Option String
  Get : GoMap → Except String GoMap
  Update : GoMap → Option String
  Delete : GoMap → Option String
  List : Int → Except String (List GoMap)

/-- A call made on the `ExampleService`, with its argument. -/
inductive Call where
  | Create (item : GoMap)
  | Get (key : GoMap)
  | Update (item : GoMap)
  | Delete (key : GoMap)
  | List (limit : Int)

/-- A value written into the body: one handed to
`json.NewEncoder(w).Encode`, or the short HTML note of `http.Redirect`
naming the target. -/
inductive Encoded where
  | map (m : GoMap)
  | maps (items : List GoMap)
  | response (resp : health.Response)
  | redirectNote (target : String)

/-- The `http.ResponseWriter`: `header` is the map `Header()` returns,
`status` the code once written, `sent` the header as it stood when the
status was written, `body` the values written so far. -/
structure ResponseWriter where
  header : List (String × String)
  status : Option Nat
  sent : List (String × String)
  body : List Encoded

/-- A fresh writer. -/
def ResponseWriter.fresh : ResponseWriter :=
  { header := [], status := none, sent := [], body := [] }

/-- `w.Header().Set(k, v)`. -/
def ResponseWriter.HeaderSet (w : ResponseWriter) (k v : String) : ResponseWriter :=
  { w with header := (k, v) :: w.header.filter (fun e => e.1 ≠ k) }

/-- `w.WriteHeader(code)`: the first call fixes the status and the header
sent; later calls change nothing. -/
def ResponseWriter.WriteHeader (w : ResponseWriter) (code : Nat) : ResponseWriter :=
  match w.status with
  | some _ => w
  | none => { w with status := some code, sent := w.header }

/-- `json.NewEncoder(w).Encode(v)`: a write, which first writes status 200
when no status was written. -/
def ResponseWriter.Encode (w : ResponseWriter) (v : Encoded) : ResponseWriter :=
  let w := w.WriteHeader StatusOK
  { w with body := w.body ++ [v] }

/-- The value of a header among those sent with the status. -/
def ResponseWriter.sentGet (w : ResponseWriter) (k : String) : Option String :=
  (w.sent.find? (fun e => e.1 = k)).map (fun e => e.2)

/-- What serving one request did: the writer at the end, the calls made on
the CRUD service in order, and whether the handler panicked. -/
structure Exchange where
  w : ResponseWriter
  calls : List Call
  panicked : Bool

/-- The `Router` struct; `exampleSvc` is optional. -/
structure Router where
  healthSvc : health.Service
  exampleSvc : Option ExampleService

/-- `(*Router).healthHandler`. -/
def Router.healthHandler (r : Router) (w : ResponseWriter) (req : Request) : Exchange :=
  if req.Method ≠ MethodGet then
    { w := w.WriteHeader StatusMethodNotAllowed, calls := [], panicked := false }
  else
    let resp := r.healthSvc.Check ()
    let status := if !resp.OK then StatusServiceUnavailable else StatusOK
    let w := w.HeaderSet hContentType vApplicationJSON
    let w := w.WriteHeader status
    let w := w.Encode (.response resp)
    { w := w, calls := [], panicked := false }

/-- The `limit` computed by the GET branch of `itemsHandler`. -/
def listLimit (req : Request) : Int :=
  let limit := int32 50
  let v := req.QueryGet "limit"
  if v ≠ "" then
    match strconv.Atoi v with
    | some n => if n > 0 then int32 n else limit
    | none => limit
  else limit

/-- `(*Router).itemsHandler`, the handler of `/items`. -/
def Router.itemsHandler (r : Router) (w : ResponseWriter) (req : Request) : Exchange :=
  match r.exampleSvc with
  | none =>
    let w := w.WriteHeader StatusNotFound
    let w := w.Encode (.map (some [("error", .str "example service not configured")]))
    { w := w, calls := [], panicked := false }
  | some svc =>
    if req.Method = MethodGet then
      let limit := listLimit req
      match svc.List limit with
      | .error err =>
        let w := w.WriteHeader StatusInternalServerError
        let w := w.Encode (.map (some [("error", .str err)]))
        { w := w, calls := [.List limit], panicked := false }
      | .ok items =>
        let w := w.HeaderSet hContentType vApplicationJSON
        let w := w.Encode (.maps items)
        { w := w, calls := [.List limit], panicked := false }
    else if req.Method = MethodPost then
      match req.Body with
      | .failed _ =>
        let w := w.WriteHeader StatusBadRequest
        let w := w.Encode (.map (some [("error", .str "invalid json")]))
        { w := w, calls := [], panicked := false }
      | .value item =>
        match svc.Create item with
        | some err =>
          let w := w.WriteHeader StatusInternalServerError
          let w := w.Encode (.map (some [("error", .str err)]))
          { w := w, calls := [.Create item], panicked := false }
        | none =>
          let w := w.HeaderSet hContentType vApplicationJSON
          let w := w.WriteHeader StatusCreated
          let w := w.Encode (.map (some [("ok", .bool true)]))
          { w := w, calls := [.Create item], panicked := false }
    else
      { w := w.WriteHeader StatusMethodNotAllowed, calls := [], panicked := false }

/-- `(*Router).itemHandler`, the handler of `/items/{id}`. -/
def Router.itemHandler (r : Router) (w : ResponseWriter) (req : Request) : Exchange :=
  match r.exampleSvc with
  | none =>
    let w := w.WriteHeader StatusNotFound
    let w := w.Encode (.map (some [("error", .str "example service not configured")]))
    { w := w, calls := [], panicked := false }
  | some svc =>
    let id := strings.TrimPrefix req.Path "/items/"
    if id = "" ∨ strings.Contains id "/" = true then
      { w := w.WriteHeader StatusNotFound, calls := [], panicked := false }
    else
      let key : GoMap := some [("id", .str id)]
      if req.Method = MethodGet then
        match svc.Get key with
        | .error err =>
          let w := w.WriteHeader StatusNotFound
          let w := w.Encode (.map (some [("error", .str err)]))
          { w := w, calls := [.Get key], panicked := false }
        | .ok item =>
          let w := w.HeaderSet hContentType vApplicationJSON
          let w := w.Encode (.map item)
          { w := w, calls := [.Get key], panicked := false }
      else if req.Method = MethodPut then
        match req.Body with
        | .failed _ =>
          let w := w.WriteHeader StatusBadRequest
          let w := w.Encode (.map (some [("error", .str "invalid json")]))
          { w := w, calls := [], panicked := false }
        | .value item =>
          match item.assign "id" (.str id) with
          | none => { w := w, calls := [], panicked := true }
          | some item =>
            match svc.Update item with
            | some err =>
              let w := w.WriteHeader StatusInternalServerError
              let w := w.Encode (.map (some [("error", .str err)]))
              { w := w, calls := [.Update item], panicked := false }
            | none =>
              let w := w.HeaderSet hContentType vApplicationJSON
              let w := w.Encode (.map (some [("ok", .bool true)]))
              { w := w, calls := [.Update item], panicked := false }
      else if req.Method = MethodDelete then
        match svc.Delete key with
        | some err =>
          let w := w.WriteHeader StatusInternalServerError
          let w := w.Encode (.map (some [("error", .str err)]))
          { w := w, calls := [.Delete key], panicked := false }
        | none =>
          { w := w.WriteHeader StatusNoContent, calls := [.Delete key], panicked := false }
      else
        { w := w.WriteHeader StatusMethodNotAllowed, calls := [], panicked := false }

/-- The handler registered for `/` in `NewRouter`. -/
def notFoundHandler (w : ResponseWriter) (_req : Request) : Exchange :=
  let w := w.HeaderSet hContentType vApplicationJSON
  let w := w.WriteHeader StatusNotFound
  let w := w.Encode (.map (some [("error", .str "route not found")]))
  { w := w, calls := [], panicked := false }

/-- `http.Redirect` as the mux calls it on a fresh writer: the `Location`
header, for GET and HEAD the content type of the HTML note, the status, and
for GET the note itself. No handler of the router runs. -/
def Redirect (w : ResponseWriter) (req : Request) (target : String) (code : Nat) : Exchange :=
  let w := w.HeaderSet "Location" target
  let w :=
    if req.Method = "GET" ∨ req.Method = "HEAD" then
      w.HeaderSet hContentType "text/html; charset=utf-8"
    else w
  let w := w.WriteHeader code
  let w := if req.Method = "GET" then w.Encode (.redirectNote target) else w
  { w := w, calls := [], panicked := false }

/-- `NewRouter`: the variadic `exampleSvc` is a list, of which the first
element, when there is one, is kept. -/
def NewRouter (healthSvc : health.Service) (exampleSvc : List ExampleService) : Router :=
  let r : Router := { healthSvc := healthSvc, exampleSvc := none }
  if exampleSvc.length > 0 then { r with exampleSvc := exampleSvc.head? } else r

/-- Serving a request through the `http.ServeMux` built by `NewRouter`.
Unless the method is CONNECT the mux first compares the path with its
canonical form `cleanPath`, and answers a request whose path differs from it
with a redirect to the canonical path, running no handler (the status is
`http.StatusTemporaryRedirect`, 307; older releases of the library answer
301; the query string the library carries over into the target is left
out). Otherwise it dispatches: the patterns `/health` and `/items` match
their path exactly, `/items/` matches every path it is a prefix of, and `/`
takes the rest. -/
def Router.ServeHTTP (r : Router) (req : Request) : Exchange :=
  let w := ResponseWriter.fresh
  if req.Method ≠ "CONNECT" ∧ http.cleanPath req.Path ≠ req.Path then
    Redirect w req (http.cleanPath req.Path) StatusTemporaryRedirect
  else if req.Path = "/health" then r.healthHandler w req
  else if req.Path = "/items" then r.itemsHandler w req
  else if strings.HasPrefix req.Path "/items/" = true then r.itemHandler w req
  else notFoundHandler w req

/-- The health service of `router_test.go`: it answers a fixed response. -/
def fakeHealthService (resp : health.Response) : health.Service :=
  { Check := fun _ => resp }

/-- A CRUD service over a fixed table: writes succeed, `Get` finds the
entry whose `"id"` matches the key, `List` returns the first `limit` items. -/
def tableService (table : List GoMap) : ExampleService :=
  { Create := fun _ => none
    Get := fun key =>
      match table.find? (fun it =>
        match it.lookup "id", key.lookup "id" with
        | some (.str a), some (.str b) => a = b
        | _, _ => false) with
      | some it => .ok it
      | none => .error "item not found"
    Update := fun _ => none
    Delete := fun _ => none
    List := fun limit => .ok (table.take limit.toNat) }

/-- A CRUD service whose backend fails every call with `msg`. -/
def failingService (msg : String) : ExampleService :=
  { Create := fun _ => some msg
    Get := fun _ => .error msg
    Update := fun _ => some msg
    Delete := fun _ => some msg
    List := fun _ => .error msg }

end httpserver

/-! ## Health aggregation -/

namespace health

theorem checkLocalstack_eq (s : service)
    (hq : s.localstackEndpoint = "" ∨
      s.NewRequest (s.localstackEndpoint ++ "/_localstack/health") = true) :
    s.checkLocalstack =
      some (if s.localstackEndpoint = "" then (true, "")
        else if reachable s = true then (true, "localstack ok")
        else (false, "localstack unreachable")) := by
  unfold service.checkLocalstack reachable
  by_cases h : s.localstackEndpoint = ""
  · simp [h]
  · have hn : s.NewRequest (s.localstackEndpoint ++ "/_localstack/health") = true :=
      hq.resolve_left h
    simp only [h, hn, if_false]
    cases hd : s.Do (s.localstackEndpoint ++ "/_localstack/health") with
    | failed e => simp
    | response code =>
      by_cases hc : code < 200 ∨ code ≥ 300
      · have : ¬ (200 ≤ code ∧ code < 300) := by omega
        simp [hc, this]
      · have : 200 ≤ code ∧ code < 300 := by omega
        simp [hc, this]

theorem checkDynamo_eq (s : service) :
    s.checkDynamo =
      match s.ddb with
      | none => (true, "")
      | some d => if storeAlive d = true then (true, "dynamodb ok")
                  else (false, "dynamodb unreachable") := by
  unfold service.checkDynamo storeAlive
  cases s.ddb with
  | none => rfl
  | some d => cases h : d.Health <;> simp [h]

end health

/-- Whenever the reachability probe is not configured or its request can be
built, `Check` returns, and it aggregates the configured probes without
short-circuit: its `OK` is the conjunction of the verdicts of the configured
probes (an unconfigured probe counts as success) and its `Message` is
`"api up"` followed, in the order reachability then store, by `"; "` and the
diagnostic of each configured probe; the endpoint is echoed. With no
dependency the result is `OK = true`, `"api up"`; with the reachability probe
failing and the store probe succeeding it is `OK = false`,
`"api up; localstack unreachable; dynamodb ok"`. -/
theorem health.Check_aggregates (s : health.service)
    (hq : s.localstackEndpoint = "" ∨
      s.NewRequest (s.localstackEndpoint ++ "/_localstack/health") = true) :
    s.Check =
        some { OK := (health.specAggregate (health.specResults s)).1,
               Message := (health.specAggregate (health.specResults s)).2,
               LocalStack := s.localstackEndpoint } ∧
      (∀ resp, s.Check = some resp →
        (resp.OK = true ↔
          (s.localstackEndpoint = "" ∨ health.reachable s = true) ∧
            ∀ d, s.ddb = some d → health.storeAlive d = true) ∧
        resp.Message =
          "api up" ++
            (if s.localstackEndpoint = "" then ""
             else if health.reachable s = true then "; localstack ok"
             else "; localstack unreachable") ++
            (match s.ddb with
             | none => ""
             | some d =>
               if health.storeAlive d = true then "; dynamodb ok"
               else "; dynamodb unreachable")) ∧
      (s.localstackEndpoint = "" → s.ddb = none →
        s.Check = some { OK := true, Message := "api up", LocalStack := "" }) ∧
      (∀ d, s.localstackEndpoint ≠ "" → health.reachable s = false → s.ddb = some d →
        health.storeAlive d = true →
        s.Check =
          some { OK := false, Message := "api up; localstack unreachable; dynamodb ok",
                 LocalStack := s.localstackEndpoint }) := by
  have hLS := health.checkLocalstack_eq s hq
  have hDD := health.checkDynamo_eq s
  unfold health.service.Check health.specResults health.specAggregate
  rw [hLS, hDD]
  by_cases he : s.localstackEndpoint = "" <;> cases hr : health.reachable s <;>
    cases hd : s.ddb with
    | none => simp [he, hr]
    | some d => cases ha : health.storeAlive d <;> simp [he, hr, ha]

theorem health.Check_aggregates_witness :
    (health.NewServiceWithDeps "http://localhost:4566" (some ⟨none⟩) true (fun _ => true)
        (fun _ => health.DoResult.failed "connection refused")).Check =
      some { OK := false, Message := "api up; localstack unreachable; dynamodb ok",
             LocalStack := "http://localhost:4566" } ∧
    (health.NewService "" (fun _ => false) (fun _ => health.DoResult.response 200)).Check =
      some { OK := true, Message := "api up", LocalStack := "" } :=
  ⟨(health.Check_aggregates
      (health.NewServiceWithDeps "http://localhost:4566" (some ⟨none⟩) true (fun _ => true)
        (fun _ => health.DoResult.failed "connection refused"))
      (Or.inr rfl)).2.2.2 ⟨none⟩ (by decide) rfl rfl rfl,
   (health.Check_aggregates
      (health.NewService "" (fun _ => false) (fun _ => health.DoResult.response 200))
      (Or.inl rfl)).2.2.1 rfl rfl⟩

/-- When the reachability endpoint is configured and no request can be
built for it, `Check` panics: it returns nothing, whatever the probes would
have answered. -/
theorem health.Check_without_request (s : health.service)
    (he : s.localstackEndpoint ≠ "")
    (hn : s.NewRequest (s.localstackEndpoint ++ "/_localstack/health") = false) :
    s.Check = none := by
  unfold health.service.Check health.service.checkLocalstack
  simp [he, hn]

/-- C1 at a failing input: with the endpoint `http://bad host`, which does
not parse as a URL, no request is built, `client.Do` panics on the nil
request and `Check` returns no response, although the reachability service
would answer 200 and the store probe succeed. -/
theorem health.Check_panics_on_bad_endpoint :
    (health.NewServiceWithDeps "http://bad host" (some ⟨none⟩) true
        (fun url => decide (url ≠ "http://bad host/_localstack/health"))
        (fun _ => health.DoResult.response 200)).Check = none ∧
    (health.NewServiceWithDeps "http://bad host" (some ⟨none⟩) true
        (fun url => decide (url ≠ "http://bad host/_localstack/health"))
        (fun _ => health.DoResult.response 200)).checkLocalstack = none :=
  ⟨by decide, by decide⟩

/-! ## Strings, paths and numbers -/

namespace strings

theorem any_tails_slash (l : List Char) :
    l.tails.any (fun t => ['/'].isPrefixOf t) = true ↔ '/' ∈ l := by
  induction l with
  | nil => simp [List.isPrefixOf]
  | cons c cs ih =>
    rw [List.tails, List.any_cons, Bool.or_eq_true, ih]
    simp [List.isPrefixOf]

theorem Contains_slash (s : String) : Contains s "/" = true ↔ '/' ∈ s.data := by
  unfold Contains
  exact any_tails_slash s.data

theorem HasPrefix_append (p s : String) : HasPrefix (p ++ s) p = true := by
  unfold HasPrefix
  rw [String.data_append, List.isPrefixOf_iff_prefix]
  exact List.prefix_append _ _

theorem TrimPrefix_append (p s : String) : TrimPrefix (p ++ s) p = s := by
  unfold TrimPrefix
  rw [if_pos (HasPrefix_append p s), String.data_append, List.drop_left]

end strings

theorem int32_of_small (n : Int) (h0 : -2 ^ 31 ≤ n) (h1 : n < 2 ^ 31) : int32 n = n := by
  unfold int32
  rw [Int.emod_eq_of_lt (by omega) (by omega)]
  omega

namespace path

theorem elements_of_no_slash (l : List Char) (h : '/' ∉ l) : elements l = [l] := by
  induction l with
  | nil => rfl
  | cons c cs ih =>
    have hc : c ≠ '/' := fun e => h (e ▸ List.mem_cons_self _ _)
    have hcs : '/' ∉ cs := fun e => h (List.mem_cons_of_mem _ e)
    simp [elements, hc, ih hcs]

end path

namespace http

/-- The path `/items/{id}` is in canonical form when the id is not empty,
holds no slash and is neither `.` nor `..`. -/
theorem cleanPath_item (id : String) (hid : id ≠ "") (hsep : '/' ∉ id.data)
    (h1 : id ≠ ".") (h2 : id ≠ "..") :
    cleanPath ("/items/" ++ id) = "/items/" ++ id := by
  have hd0 : id.data ≠ [] := fun e => hid (String.ext e)
  have hd1 : id.data ≠ ['.'] := fun e => h1 (String.ext e)
  have hd2 : id.data ≠ ['.', '.'] := fun e => h2 (String.ext e)
  have hdata : ("/items/" ++ id).data = '/' :: 'i' :: 't' :: 'e' :: 'm' :: 's' :: '/' :: id.data := by
    rw [String.data_append]
    rfl
  have hne : "/items/" ++ id ≠ "" := by
    intro e
    have := congrArg String.data e
    rw [hdata] at this
    exact List.noConfusion this
  have hclean : path.Clean ("/items/" ++ id) = "/items/" ++ id := by
    unfold path.Clean
    apply String.ext
    rw [hdata]
    simp [path.elements, path.elements_of_no_slash id.data hsep, path.keep, hd0, hd1, hd2,
      List.intercalate, List.intersperse]
  have hlast : ¬ (("/items/" ++ id).data.getLast? = some '/') := by
    intro e
    rw [hdata] at e
    have hmem : '/' ∈ id.data := by
      have h5 : ('/' :: 'i' :: 't' :: 'e' :: 'm' :: 's' :: '/' :: id.data).getLast? =
          id.data.getLast? := by
        rcases hx : id.data with _ | ⟨c, cs⟩
        · exact absurd hx hd0
        · simp [List.getLast?_cons_cons]
      rw [h5] at e
      exact List.mem_of_getLast?_eq_some e
    exact hsep hmem
  unfold cleanPath
  simp only [hne, if_false]
  have hhead : ¬ (("/items/" ++ id).data.head? ≠ some '/') := by
    rw [hdata]
    simp
  simp only [hhead, if_false, hclean, hlast, false_and, if_false]

end http

/-! ## The mux -/

namespace httpserver

theorem items_path_ne (id : String) :
    "/items/" ++ id ≠ "/health" ∧ "/items/" ++ id ≠ "/items" := by
  constructor
  · intro h
    have h2 := congrArg String.data h
    rw [String.data_append] at h2
    change ['/', 'i', 't', 'e', 'm', 's', '/'] ++ id.data = ['/', 'h', 'e', 'a', 'l', 't', 'h'] at h2
    simp at h2
  · intro h
    have h2 := congrArg String.data h
    rw [String.data_append] at h2
    change ['/', 'i', 't', 'e', 'm', 's', '/'] ++ id.data = ['/', 'i', 't', 'e', 'm', 's'] at h2
    simp at h2

theorem HasPrefix_split (s p : String) (h : strings.HasPrefix s p = true) :
    ∃ t : String, s = p ++ t := by
  unfold strings.HasPrefix at h
  rw [List.isPrefixOf_iff_prefix] at h
  obtain ⟨t, ht⟩ := h
  refine ⟨⟨t⟩, ?_⟩
  apply String.ext
  rw [String.data_append, ht]

/-- A request whose path is in canonical form is dispatched, not redirected. -/
theorem ServeHTTP_dispatch (r : Router) (req : Request)
    (hc : http.cleanPath req.Path = req.Path) :
    r.ServeHTTP req =
      if req.Path = "/health" then r.healthHandler ResponseWriter.fresh req
      else if req.Path = "/items" then r.itemsHandler ResponseWriter.fresh req
      else if strings.HasPrefix req.Path "/items/" = true then
        r.itemHandler ResponseWriter.fresh req
      else notFoundHandler ResponseWriter.fresh req := by
  unfold Router.ServeHTTP
  simp [hc]

/-- Requests to `/health` reach `healthHandler`. -/
theorem ServeHTTP_health (r : Router) (req : Request) (hp : req.Path = "/health") :
    r.ServeHTTP req = r.healthHandler ResponseWriter.fresh req := by
  have hc : http.cleanPath req.Path = req.Path := by rw [hp]; decide
  rw [ServeHTTP_dispatch r req hc, if_pos hp]

/-- Requests to `/items` reach `itemsHandler`. -/
theorem ServeHTTP_items (r : Router) (req : Request) (hp : req.Path = "/items") :
    r.ServeHTTP req = r.itemsHandler ResponseWriter.fresh req := by
  have hc : http.cleanPath req.Path = req.Path := by rw [hp]; decide
  have hne : ¬ (req.Path = "/health") := by rw [hp]; decide
  rw [ServeHTTP_dispatch r req hc, if_neg hne, if_pos hp]

/-- Requests under `/items/` whose path is in canonical form reach
`itemHandler`. -/
theorem ServeHTTP_item (r : Router) (req : Request) (id : String)
    (hp : req.Path = "/items/" ++ id) (hc : http.cleanPath req.Path = req.Path) :
    r.ServeHTTP req = r.itemHandler ResponseWriter.fresh req := by
  have h := items_path_ne id
  have h1 : ¬ (req.Path = "/health") := by rw [hp]; exact h.1
  have h2 : ¬ (req.Path = "/items") := by rw [hp]; exact h.2
  have h3 : strings.HasPrefix req.Path "/items/" = true := by
    rw [hp]; exact strings.HasPrefix_append _ _
  rw [ServeHTTP_dispatch r req hc, if_neg h1, if_neg h2, if_pos h3]

/-- A request whose path is not in canonical form is answered by the mux
with a redirect to the canonical path; no handler runs. -/
theorem ServeHTTP_redirect (r : Router) (req : Request)
    (hm : req.Method ≠ "CONNECT") (hc : http.cleanPath req.Path ≠ req.Path) :
    r.ServeHTTP req =
      Redirect ResponseWriter.fresh req (http.cleanPath req.Path) StatusTemporaryRedirect := by
  unfold Router.ServeHTTP
  simp [hm, hc]

theorem lookup_assignKV_self (k : String) (v : Any) (kv : List (String × Any)) :
    GoMap.lookup (some (assignKV k v kv)) k = some v := by
  induction kv with
  | nil => simp [GoMap.lookup, assignKV]
  | cons e rest ih =>
    obtain ⟨k', v'⟩ := e
    by_cases h : k' = k
    · simp [GoMap.lookup, assignKV, h]
    · simpa [GoMap.lookup, assignKV, h, List.find?_cons] using ih

theorem lookup_assignKV_other (k k' : String) (v : Any) (kv : List (String × Any))
    (hk : k' ≠ k) :
    GoMap.lookup (some (assignKV k v kv)) k' = GoMap.lookup (some kv) k' := by
  induction kv with
  | nil => simp [GoMap.lookup, assignKV, Ne.symm hk]
  | cons e rest ih =>
    obtain ⟨k₁, v₁⟩ := e
    by_cases h : k₁ = k
    · simp [GoMap.lookup, assignKV, h, List.find?_cons, Ne.symm hk]
    · by_cases h2 : k₁ = k'
      · subst h2
        simp [GoMap.lookup, assignKV, h, List.find?_cons]
      · simpa [GoMap.lookup, assignKV, h, List.find?_cons, h2] using ih

theorem NewRouter_none (h : health.Service) :
    NewRouter h [] = { healthSvc := h, exampleSvc := none } := rfl

theorem NewRouter_cons (h : health.Service) (svc : ExampleService) (rest : List ExampleService) :
    NewRouter h (svc :: rest) = { healthSvc := h, exampleSvc := some svc } := by
  simp [NewRouter]

/-- The id `itemHandler` extracts from `/items/{id}` passes its guard exactly
when it is non-empty and holds no `/`. -/
theorem item_guard (id : String) :
    (id = "" ∨ strings.Contains id "/" = true) ↔ (id = "" ∨ '/' ∈ id.data) := by
  rw [strings.Contains_slash]

theorem QueryGet_absent (req : Request) (key : String)
    (h : ∀ e ∈ req.Query, e.1 ≠ key) : req.QueryGet key = "" := by
  unfold Request.QueryGet
  have : req.Query.find? (fun e => e.1 = key) = none := by
    rw [List.find?_eq_none]
    intro e he
    simpa using h e he
  rw [this]

/-- The limit falls back to 50 when the query value is absent, does not
parse, or parses to a number that is not positive. -/
theorem listLimit_default (req : Request)
    (hv : (∀ e ∈ req.Query, e.1 ≠ "limit") ∨ strconv.Atoi (req.QueryGet "limit") = none ∨
      ∃ n, strconv.Atoi (req.QueryGet "limit") = some n ∧ n ≤ 0) :
    listLimit req = 50 := by
  have h50 : int32 50 = 50 := by decide
  unfold listLimit
  rcases hv with ha | hn | ⟨n, hn, hle⟩
  · simp [QueryGet_absent req "limit" ha, h50]
  · simp only [hn, h50]
    split <;> rfl
  · simp only [hn, h50]
    have : ¬ n > 0 := by omega
    simp [this]

/-- What the GET branch of `itemsHandler` does, given the limit. -/
theorem itemsHandler_get (h : health.Service) (svc : ExampleService) (req : Request)
    (hm : req.Method = "GET") :
    (Router.itemsHandler { healthSvc := h, exampleSvc := some svc } ResponseWriter.fresh req).calls =
        [.List (listLimit req)] ∧
      (Router.itemsHandler { healthSvc := h, exampleSvc := some svc }
        ResponseWriter.fresh req).panicked = false ∧
      (∀ items, svc.List (listLimit req) = .ok items →
        (Router.itemsHandler { healthSvc := h, exampleSvc := some svc }
            ResponseWriter.fresh req).w.status = some 200 ∧
          (Router.itemsHandler { healthSvc := h, exampleSvc := some svc }
            ResponseWriter.fresh req).w.body = [.maps items]) := by
  unfold Router.itemsHandler
  simp only [hm, MethodGet, if_true]
  cases hl : svc.List (listLimit req) <;>
    simp [ResponseWriter.Encode, ResponseWriter.WriteHeader, ResponseWriter.HeaderSet,
      ResponseWriter.fresh, StatusOK]

end httpserver

/-! ## The dispatcher -/

/-- C2. For every response the health service returns, `GET /health` answers
200 when its `OK` is true and 503 when it is false, and in both cases the
body is the encoding of that same response. -/
theorem httpserver.health_route (h : health.Service) (svcs : List httpserver.ExampleService)
    (req : httpserver.Request) (hp : req.Path = "/health") (hm : req.Method = "GET") :
    ((httpserver.NewRouter h svcs).ServeHTTP req).w.status =
        some (if (h.Check ()).OK = true then 200 else 503) ∧
      ((httpserver.NewRouter h svcs).ServeHTTP req).w.body =
        [httpserver.Encoded.response (h.Check ())] ∧
      ((httpserver.NewRouter h svcs).ServeHTTP req).panicked = false := by
  have hr : (httpserver.NewRouter h svcs).healthSvc = h := by
    unfold httpserver.NewRouter
    split <;> rfl
  rw [httpserver.ServeHTTP_health _ req hp]
  unfold httpserver.Router.healthHandler
  simp only [hm, hr]
  cases hok : (h.Check ()).OK <;>
    simp [httpserver.MethodGet, httpserver.ResponseWriter.Encode,
      httpserver.ResponseWriter.WriteHeader, httpserver.ResponseWriter.HeaderSet,
      httpserver.ResponseWriter.fresh, httpserver.StatusOK,
      httpserver.StatusServiceUnavailable]

theorem httpserver.health_route_witness :
    ((httpserver.NewRouter
        (httpserver.fakeHealthService { OK := false, Message := "down", LocalStack := "" })
        []).ServeHTTP
      { Method := "GET", Path := "/health", Query := [], Body := .failed "EOF" }).w.status =
        some 503 ∧
    ((httpserver.NewRouter
        (httpserver.fakeHealthService { OK := true, Message := "ok", LocalStack := "" })
        []).ServeHTTP
      { Method := "GET", Path := "/health", Query := [], Body := .failed "EOF" }).w.status =
        some 200 :=
  ⟨(httpserver.health_route
      (httpserver.fakeHealthService { OK := false, Message := "down", LocalStack := "" }) []
      { Method := "GET", Path := "/health", Query := [], Body := .failed "EOF" } rfl rfl).1,
   (httpserver.health_route
      (httpserver.fakeHealthService { OK := true, Message := "ok", LocalStack := "" }) []
      { Method := "GET", Path := "/health", Query := [], Body := .failed "EOF" } rfl rfl).1⟩


/-- C4. With a CRUD service configured, a `GET /items` whose `limit` query
value is absent, does not parse as an integer, or parses to zero or a
negative number calls `List` with limit 50 and is not rejected: the answer
is 200 with the list when `List` succeeds, and the whole exchange is the one
of the same request with `limit=50`. -/
theorem httpserver.list_default_limit (h : health.Service) (svc : httpserver.ExampleService)
    (rest : List httpserver.ExampleService) (req : httpserver.Request)
    (hp : req.Path = "/items") (hm : req.Method = "GET")
    (hv : (∀ e ∈ req.Query, e.1 ≠ "limit") ∨ strconv.Atoi (req.QueryGet "limit") = none ∨
      ∃ n, strconv.Atoi (req.QueryGet "limit") = some n ∧ n ≤ 0) :
    ((httpserver.NewRouter h (svc :: rest)).ServeHTTP req).calls = [.List 50] ∧
      ((httpserver.NewRouter h (svc :: rest)).ServeHTTP req).panicked = false ∧
      (∀ items, svc.List 50 = .ok items →
        ((httpserver.NewRouter h (svc :: rest)).ServeHTTP req).w.status = some 200 ∧
        ((httpserver.NewRouter h (svc :: rest)).ServeHTTP req).w.body = [.maps items]) ∧
      (httpserver.NewRouter h (svc :: rest)).ServeHTTP req =
        (httpserver.NewRouter h (svc :: rest)).ServeHTTP
          { req with Query := [("limit", "50")] } := by
  have hl := httpserver.listLimit_default req hv
  have hg := httpserver.itemsHandler_get h svc req hm
  rw [hl] at hg
  rw [httpserver.ServeHTTP_items _ req hp, httpserver.NewRouter_cons]
  refine ⟨hg.1, hg.2.1, hg.2.2, ?_⟩
  rw [httpserver.ServeHTTP_items _ { req with Query := [("limit", "50")] } hp]
  have hl' : httpserver.listLimit { req with Query := [("limit", "50")] } = 50 := by
    show httpserver.listLimit
      { Method := "", Path := "", Query := [("limit", "50")], Body := .failed "" } = 50
    decide
  unfold httpserver.Router.itemsHandler
  simp only [hl, hl']

theorem httpserver.list_default_limit_witness :
    ((httpserver.NewRouter (httpserver.fakeHealthService ⟨true, "ok", ""⟩)
        [httpserver.tableService []]).ServeHTTP
      { Method := "GET", Path := "/items", Query := [("limit", "0")],
        Body := .failed "EOF" }).calls = [.List 50] ∧
    ((httpserver.NewRouter (httpserver.fakeHealthService ⟨true, "ok", ""⟩)
        [httpserver.tableService []]).ServeHTTP
      { Method := "GET", Path := "/items", Query := [("limit", "-5")],
        Body := .failed "EOF" }).w.status = some 200 ∧
    ((httpserver.NewRouter (httpserver.fakeHealthService ⟨true, "ok", ""⟩)
        [httpserver.tableService []]).ServeHTTP
      { Method := "GET", Path := "/items", Query := [("limit", "abc")],
        Body := .failed "EOF" }).calls = [.List 50] ∧
    ((httpserver.NewRouter (httpserver.fakeHealthService ⟨true, "ok", ""⟩)
        [httpserver.tableService []]).ServeHTTP
      { Method := "GET", Path := "/items", Query := [],
        Body := .failed "EOF" }).calls = [.List 50] :=
  ⟨(httpserver.list_default_limit _ (httpserver.tableService []) []
      { Method := "GET", Path := "/items", Query := [("limit", "0")], Body := .failed "EOF" }
      rfl rfl (Or.inr (Or.inr ⟨0, by decide, by decide⟩))).1,
   ((httpserver.list_default_limit _ (httpserver.tableService []) []
      { Method := "GET", Path := "/items", Query := [("limit", "-5")], Body := .failed "EOF" }
      rfl rfl (Or.inr (Or.inr ⟨-5, by decide, by decide⟩))).2.2.1 [] rfl).1,
   (httpserver.list_default_limit _ (httpserver.tableService []) []
      { Method := "GET", Path := "/items", Query := [("limit", "abc")], Body := .failed "EOF" }
      rfl rfl (Or.inr (Or.inl (by decide)))).1,
   (httpserver.list_default_limit _ (httpserver.tableService []) []
      { Method := "GET", Path := "/items", Query := [], Body := .failed "EOF" }
      rfl rfl (Or.inl (by simp))).1⟩


/-- C3, as the code and its mux have it. With a CRUD service configured, for
every path id that is non-empty, holds no path separator and is neither `.`
nor `..`, and every body that decodes to a JSON object, `PUT /items/{id}`
calls `Update` once, with the body's item in which `"id"` is set to the path
id: its `"id"` field is the path id whatever the body carried, every other
field is the body's, and the answer is 200 with the body `{"ok": true}` when
`Update` succeeds. -/
theorem httpserver.put_path_id_wins (h : health.Service) (svc : httpserver.ExampleService)
    (rest : List httpserver.ExampleService) (req : httpserver.Request) (id : String)
    (kv : List (String × httpserver.Any))
    (hid : id ≠ "") (hsep : '/' ∉ id.data) (hdot : id ≠ ".") (hdotdot : id ≠ "..")
    (hp : req.Path = "/items/" ++ id) (hm : req.Method = "PUT")
    (hb : req.Body = .value (some kv)) :
    ((httpserver.NewRouter h (svc :: rest)).ServeHTTP req).calls =
        [.Update (some (httpserver.assignKV "id" (.str id) kv))] ∧
      httpserver.GoMap.lookup (some (httpserver.assignKV "id" (.str id) kv)) "id" =
        some (.str id) ∧
      (∀ k, k ≠ "id" →
        httpserver.GoMap.lookup (some (httpserver.assignKV "id" (.str id) kv)) k =
          httpserver.GoMap.lookup (some kv) k) ∧
      ((httpserver.NewRouter h (svc :: rest)).ServeHTTP req).panicked = false ∧
      (svc.Update (some (httpserver.assignKV "id" (.str id) kv)) = none →
        ((httpserver.NewRouter h (svc :: rest)).ServeHTTP req).w.status = some 200 ∧
        ((httpserver.NewRouter h (svc :: rest)).ServeHTTP req).w.body =
          [.map (some [("ok", .bool true)])]) := by
  have hg : ¬ (id = "" ∨ strings.Contains id "/" = true) := by
    rw [httpserver.item_guard]
    exact fun e => e.elim hid hsep
  have ht : strings.TrimPrefix req.Path "/items/" = id := by
    rw [hp, strings.TrimPrefix_append]
  have hc : http.cleanPath req.Path = req.Path := by
    rw [hp]
    exact http.cleanPath_item id hid hsep hdot hdotdot
  rw [httpserver.ServeHTTP_item _ req id hp hc, httpserver.NewRouter_cons]
  refine ⟨?_, httpserver.lookup_assignKV_self _ _ _,
    fun k hk => httpserver.lookup_assignKV_other _ _ _ _ hk, ?_, ?_⟩
  · unfold httpserver.Router.itemHandler
    simp only [ht, hg, hm, hb, if_false]
    cases hu : svc.Update (some (httpserver.assignKV "id" (.str id) kv)) <;>
      simp [httpserver.MethodGet, httpserver.MethodPut, httpserver.GoMap.assign, hu]
  · unfold httpserver.Router.itemHandler
    simp only [ht, hg, hm, hb, if_false]
    cases hu : svc.Update (some (httpserver.assignKV "id" (.str id) kv)) <;>
      simp [httpserver.MethodGet, httpserver.MethodPut, httpserver.GoMap.assign, hu]
  · intro hu
    unfold httpserver.Router.itemHandler
    simp only [ht, hg, hm, hb, if_false]
    simp [httpserver.MethodGet, httpserver.MethodPut, httpserver.GoMap.assign, hu,
      httpserver.ResponseWriter.Encode, httpserver.ResponseWriter.WriteHeader,
      httpserver.ResponseWriter.HeaderSet, httpserver.ResponseWriter.fresh,
      httpserver.StatusOK]

theorem httpserver.put_path_id_wins_witness :
    ((httpserver.NewRouter (httpserver.fakeHealthService ⟨true, "ok", ""⟩)
        [httpserver.tableService []]).ServeHTTP
      { Method := "PUT", Path := "/items/abc", Query := [],
        Body := .value (some [("id", .str "zzz"), ("name", .str "x")]) }).calls =
      [.Update (some [("id", .str "abc"), ("name", .str "x")])] ∧
    ((httpserver.NewRouter (httpserver.fakeHealthService ⟨true, "ok", ""⟩)
        [httpserver.tableService []]).ServeHTTP
      { Method := "PUT", Path := "/items/abc", Query := [],
        Body := .value (some [("id", .str "zzz"), ("name", .str "x")]) }).w.status =
      some 200 ∧
    ((httpserver.NewRouter (httpserver.fakeHealthService ⟨true, "ok", ""⟩)
        [httpserver.tableService []]).ServeHTTP
      { Method := "PUT", Path := "/items/abc", Query := [],
        Body := .value (some [("id", .str "zzz"), ("name", .str "x")]) }).w.body =
      [.map (some [("ok", .bool true)])] :=
  have key := httpserver.put_path_id_wins (httpserver.fakeHealthService ⟨true, "ok", ""⟩)
    (httpserver.tableService []) []
    { Method := "PUT", Path := "/items/abc", Query := [],
      Body := .value (some [("id", .str "zzz"), ("name", .str "x")]) }
    "abc" [("id", .str "zzz"), ("name", .str "x")] (by decide) (by decide) (by decide)
    (by decide) rfl rfl rfl
  ⟨key.1, (key.2.2.2.2 rfl).1, (key.2.2.2.2 rfl).2⟩

/-- C3, as stated, fails: the ids `..` and `.` are non-empty and hold no
path separator, yet `PUT /items/..` and `PUT /items/.` with a body that
decodes to a JSON object call no `Update` and are not answered 200: the mux
redirects them to `/` and to `/items`. -/
theorem httpserver.put_dot_ids_are_redirected :
    (".." ≠ "" ∧ '/' ∉ ("..").data ∧
      ((httpserver.NewRouter (httpserver.fakeHealthService ⟨true, "ok", ""⟩)
        [httpserver.tableService []]).ServeHTTP
        { Method := "PUT", Path := "/items/..", Query := [],
          Body := .value (some [("id", .str "zzz"), ("name", .str "x")]) }).calls = [] ∧
      ((httpserver.NewRouter (httpserver.fakeHealthService ⟨true, "ok", ""⟩)
        [httpserver.tableService []]).ServeHTTP
        { Method := "PUT", Path := "/items/..", Query := [],
          Body := .value (some [("id", .str "zzz"), ("name", .str "x")]) }).w.status ≠
        some 200 ∧
      ((httpserver.NewRouter (httpserver.fakeHealthService ⟨true, "ok", ""⟩)
        [httpserver.tableService []]).ServeHTTP
        { Method := "PUT", Path := "/items/..", Query := [],
          Body := .value (some [("id", .str "zzz"), ("name", .str "x")]) }).w.sentGet
          "Location" = some "/") ∧
    ("." ≠ "" ∧ '/' ∉ (".").data ∧
      ((httpserver.NewRouter (httpserver.fakeHealthService ⟨true, "ok", ""⟩)
        [httpserver.tableService []]).ServeHTTP
        { Method := "PUT", Path := "/items/.", Query := [],
          Body := .value (some [("id", .str "zzz"), ("name", .str "x")]) }).calls = [] ∧
      ((httpserver.NewRouter (httpserver.fakeHealthService ⟨true, "ok", ""⟩)
        [httpserver.tableService []]).ServeHTTP
        { Method := "PUT", Path := "/items/.", Query := [],
          Body := .value (some [("id", .str "zzz"), ("name", .str "x")]) }).w.status ≠
        some 200 ∧
      ((httpserver.NewRouter (httpserver.fakeHealthService ⟨true, "ok", ""⟩)
        [httpserver.tableService []]).ServeHTTP
        { Method := "PUT", Path := "/items/.", Query := [],
          Body := .value (some [("id", .str "zzz"), ("name", .str "x")]) }).w.sentGet
          "Location" = some "/items") :=
  ⟨⟨by decide, by decide, rfl, by decide, by decide⟩,
   ⟨by decide, by decide, rfl, by decide, by decide⟩⟩

namespace httpserver

/-- Without a CRUD service both item routes answer the same bare exchange. -/
theorem unconfigured_exchange (h : health.Service) (req : Request)
    (hp : req.Path = "/items" ∨
      (strings.HasPrefix req.Path "/items/" = true ∧ http.cleanPath req.Path = req.Path)) :
    (Router.ServeHTTP { healthSvc := h, exampleSvc := none } req) =
      { w := { header := [], status := some 404, sent := [],
               body := [.map (some [("error", .str "example service not configured")])] },
        calls := [], panicked := false } := by
  rcases hp with hp | ⟨hp, hc⟩
  · rw [ServeHTTP_items _ req hp]
    rfl
  · obtain ⟨id, hid⟩ := HasPrefix_split _ _ hp
    rw [ServeHTTP_item _ req id hid hc]
    rfl

theorem fallback_exchange (r : Router) (req : Request)
    (hc : http.cleanPath req.Path = req.Path)
    (h1 : req.Path ≠ "/health") (h2 : req.Path ≠ "/items")
    (h3 : strings.HasPrefix req.Path "/items/" = false) :
    r.ServeHTTP req =
      { w := { header := [("Content-Type", "application/json")], status := some 404,
               sent := [("Content-Type", "application/json")],
               body := [.map (some [("error", .str "route not found")])] },
        calls := [], panicked := false } := by
  rw [ServeHTTP_dispatch r req hc]
  simp only [h1, h2, h3, if_false]
  rfl

end httpserver

/-- C5, as the code and its mux have it. A router built without a CRUD
service answers every request to `/items` and to `/items/abc` (and to any
path under `/items/` in canonical form), whatever the method, with 404 and
the body `{"error": "example service not configured"}`, calling no service;
every router answers a request whose path is in canonical form and is other
than `/health`, `/items` and `/items/...` with 404 and the body
`{"error": "route not found"}`; the two bodies differ. -/
theorem httpserver.not_found_classification (h : health.Service) (req : httpserver.Request) :
    ((req.Path = "/items" ∨ req.Path = "/items/abc" ∨
        (strings.HasPrefix req.Path "/items/" = true ∧
          http.cleanPath req.Path = req.Path)) →
      ((httpserver.NewRouter h []).ServeHTTP req).w.status = some 404 ∧
        ((httpserver.NewRouter h []).ServeHTTP req).w.body =
          [.map (some [("error", .str "example service not configured")])] ∧
        ((httpserver.NewRouter h []).ServeHTTP req).calls = [] ∧
        ((httpserver.NewRouter h []).ServeHTTP req).panicked = false) ∧
    (∀ svcs : List httpserver.ExampleService,
      http.cleanPath req.Path = req.Path →
      req.Path ≠ "/health" → req.Path ≠ "/items" →
      strings.HasPrefix req.Path "/items/" = false →
      ((httpserver.NewRouter h svcs).ServeHTTP req).w.status = some 404 ∧
        ((httpserver.NewRouter h svcs).ServeHTTP req).w.body =
          [.map (some [("error", .str "route not found")])] ∧
        ((httpserver.NewRouter h svcs).ServeHTTP req).calls = []) ∧
    httpserver.Encoded.map (some [("error", .str "example service not configured")]) ≠
      httpserver.Encoded.map (some [("error", .str "route not found")]) := by
  refine ⟨?_, ?_, ?_⟩
  · intro hp
    have hp' : req.Path = "/items" ∨
        (strings.HasPrefix req.Path "/items/" = true ∧
          http.cleanPath req.Path = req.Path) := by
      rcases hp with hp | hp | hp
      · exact Or.inl hp
      · exact Or.inr ⟨by rw [hp]; decide, by rw [hp]; decide⟩
      · exact Or.inr hp
    rw [httpserver.NewRouter_none, httpserver.unconfigured_exchange h req hp']
    exact ⟨rfl, rfl, rfl, rfl⟩
  · intro svcs hc h1 h2 h3
    rw [httpserver.fallback_exchange _ req hc h1 h2 h3]
    exact ⟨rfl, rfl, rfl⟩
  · simp

theorem httpserver.not_found_classification_witness :
    (((httpserver.NewRouter (httpserver.fakeHealthService ⟨true, "", ""⟩) []).ServeHTTP
        { Method := "GET", Path := "/items/abc", Query := [], Body := .failed "EOF" }).w.status =
        some 404 ∧
      ((httpserver.NewRouter (httpserver.fakeHealthService ⟨true, "", ""⟩) []).ServeHTTP
        { Method := "GET", Path := "/items/abc", Query := [], Body := .failed "EOF" }).w.body =
        [.map (some [("error", .str "example service not configured")])]) ∧
    (((httpserver.NewRouter (httpserver.fakeHealthService ⟨true, "", ""⟩)
        [httpserver.tableService []]).ServeHTTP
        { Method := "GET", Path := "/unknown", Query := [], Body := .failed "EOF" }).w.status =
        some 404 ∧
      ((httpserver.NewRouter (httpserver.fakeHealthService ⟨true, "", ""⟩)
        [httpserver.tableService []]).ServeHTTP
        { Method := "GET", Path := "/unknown", Query := [], Body := .failed "EOF" }).w.body =
        [.map (some [("error", .str "route not found")])]) :=
  have a := (httpserver.not_found_classification (httpserver.fakeHealthService ⟨true, "", ""⟩)
    { Method := "GET", Path := "/items/abc", Query := [], Body := .failed "EOF" }).1
    (Or.inr (Or.inl rfl))
  have b := (httpserver.not_found_classification (httpserver.fakeHealthService ⟨true, "", ""⟩)
    { Method := "GET", Path := "/unknown", Query := [], Body := .failed "EOF" }).2.1
    [httpserver.tableService []] (by decide) (by decide) (by decide) (by decide)
  ⟨⟨a.1, a.2.1⟩, ⟨b.1, b.2.1⟩⟩

/-- C5, as stated, fails: `//unknown` is a path other than `/health`,
`/items` and `/items/...`, yet `GET //unknown` is not answered 404 with the
body `{"error": "route not found"}`: the mux redirects it to `/unknown`. -/
theorem httpserver.unclean_path_is_redirected :
    "//unknown" ≠ "/health" ∧ "//unknown" ≠ "/items" ∧
      strings.HasPrefix "//unknown" "/items/" = false ∧
    ((httpserver.NewRouter (httpserver.fakeHealthService ⟨true, "", ""⟩) []).ServeHTTP
        { Method := "GET", Path := "//unknown", Query := [], Body := .failed "EOF" }).w.status ≠
        some 404 ∧
    ((httpserver.NewRouter (httpserver.fakeHealthService ⟨true, "", ""⟩) []).ServeHTTP
        { Method := "GET", Path := "//unknown", Query := [], Body := .failed "EOF" }).w.body =
        [.redirectNote "/unknown"] ∧
    ((httpserver.NewRouter (httpserver.fakeHealthService ⟨true, "", ""⟩) []).ServeHTTP
        { Method := "GET", Path := "//unknown", Query := [], Body := .failed "EOF" }).w.sentGet
          "Location" = some "/unknown" :=
  ⟨by decide, by decide, by decide, by decide, rfl, by decide⟩

/-- C6. With a CRUD service configured, `POST /items` answers 400 with the
body `{"error": "invalid json"}` and calls nothing when the body does not
decode; otherwise it calls `Create` exactly once, with the decoded item, and
answers 201 with the body `{"ok": true}` when `Create` succeeds and 500 with
the body `{"error": message}`, the message being the error's, when it
fails. -/
theorem httpserver.create_item (h : health.Service) (svc : httpserver.ExampleService)
    (rest : List httpserver.ExampleService) (req : httpserver.Request)
    (hp : req.Path = "/items") (hm : req.Method = "POST") :
    (∀ err, req.Body = .failed err →
      ((httpserver.NewRouter h (svc :: rest)).ServeHTTP req).w.status = some 400 ∧
        ((httpserver.NewRouter h (svc :: rest)).ServeHTTP req).w.body =
          [.map (some [("error", .str "invalid json")])] ∧
        ((httpserver.NewRouter h (svc :: rest)).ServeHTTP req).calls = []) ∧
    (∀ item, req.Body = .value item →
      ((httpserver.NewRouter h (svc :: rest)).ServeHTTP req).calls = [.Create item] ∧
        (svc.Create item = none →
          ((httpserver.NewRouter h (svc :: rest)).ServeHTTP req).w.status = some 201 ∧
          ((httpserver.NewRouter h (svc :: rest)).ServeHTTP req).w.body =
            [.map (some [("ok", .bool true)])]) ∧
        (∀ msg, svc.Create item = some msg →
          ((httpserver.NewRouter h (svc :: rest)).ServeHTTP req).w.status = some 500 ∧
          ((httpserver.NewRouter h (svc :: rest)).ServeHTTP req).w.body =
            [.map (some [("error", .str msg)])])) ∧
    ((httpserver.NewRouter h (svc :: rest)).ServeHTTP req).panicked = false := by
  have hne : ¬ ("POST" = "GET") := by decide
  rw [httpserver.ServeHTTP_items _ req hp, httpserver.NewRouter_cons]
  unfold httpserver.Router.itemsHandler
  simp only [hm, httpserver.MethodGet, httpserver.MethodPost, hne, if_true, if_false]
  cases hb : req.Body with
  | failed e =>
    simp [httpserver.ResponseWriter.Encode, httpserver.ResponseWriter.WriteHeader,
      httpserver.ResponseWriter.fresh, httpserver.StatusBadRequest]
  | value item =>
    cases hc : svc.Create item <;>
      simp [hc, httpserver.ResponseWriter.Encode, httpserver.ResponseWriter.WriteHeader,
        httpserver.ResponseWriter.HeaderSet, httpserver.ResponseWriter.fresh,
        httpserver.StatusCreated, httpserver.StatusInternalServerError]

theorem httpserver.create_item_witness :
    (((httpserver.NewRouter (httpserver.fakeHealthService ⟨true, "", ""⟩)
        [httpserver.tableService []]).ServeHTTP
        { Method := "POST", Path := "/items", Query := [],
          Body := .failed "invalid character o in literal null" }).w.status =
        some 400 ∧
      ((httpserver.NewRouter (httpserver.fakeHealthService ⟨true, "", ""⟩)
        [httpserver.tableService []]).ServeHTTP
        { Method := "POST", Path := "/items", Query := [],
          Body := .failed "invalid character o in literal null" }).w.body =
        [.map (some [("error", .str "invalid json")])]) ∧
    (((httpserver.NewRouter (httpserver.fakeHealthService ⟨true, "", ""⟩)
        [httpserver.tableService []]).ServeHTTP
        { Method := "POST", Path := "/items", Query := [],
          Body := .value (some [("id", .str "a")]) }).w.status = some 201 ∧
      ((httpserver.NewRouter (httpserver.fakeHealthService ⟨true, "", ""⟩)
        [httpserver.tableService []]).ServeHTTP
        { Method := "POST", Path := "/items", Query := [],
          Body := .value (some [("id", .str "a")]) }).w.body =
        [.map (some [("ok", .bool true)])]) ∧
    (((httpserver.NewRouter (httpserver.fakeHealthService ⟨true, "", ""⟩)
        [httpserver.failingService "table missing"]).ServeHTTP
        { Method := "POST", Path := "/items", Query := [],
          Body := .value (some [("id", .str "a")]) }).w.status = some 500 ∧
      ((httpserver.NewRouter (httpserver.fakeHealthService ⟨true, "", ""⟩)
        [httpserver.failingService "table missing"]).ServeHTTP
        { Method := "POST", Path := "/items", Query := [],
          Body := .value (some [("id", .str "a")]) }).w.body =
        [.map (some [("error", .str "table missing")])]) :=
  have a := (httpserver.create_item (httpserver.fakeHealthService ⟨true, "", ""⟩)
    (httpserver.tableService []) []
    { Method := "POST", Path := "/items", Query := [],
      Body := .failed "invalid character o in literal null" } rfl rfl).1 _ rfl
  have b := ((httpserver.create_item (httpserver.fakeHealthService ⟨true, "", ""⟩)
    (httpserver.tableService []) []
    { Method := "POST", Path := "/items", Query := [],
      Body := .value (some [("id", .str "a")]) } rfl rfl).2.1 _ rfl).2.1 rfl
  have c := ((httpserver.create_item (httpserver.fakeHealthService ⟨true, "", ""⟩)
    (httpserver.failingService "table missing") []
    { Method := "POST", Path := "/items", Query := [],
      Body := .value (some [("id", .str "a")]) } rfl rfl).2.1 _ rfl).2.2 _ rfl
  ⟨⟨a.1, a.2.1⟩, b, c⟩

/-- C8, as the code and its mux have it. With a CRUD service configured and
the path `/items/{id}` in canonical form, `GET /items/{id}` for a non-empty
id without a path separator calls `Get` with the key `{"id": id}` and
answers 200 with the item when `Get` succeeds and 404 with the body
`{"error": message}`, the message being the error's, when it fails; for an
empty id or an id holding a path separator it answers 404 with an empty body
and calls no service. -/
theorem httpserver.get_item (h : health.Service) (svc : httpserver.ExampleService)
    (rest : List httpserver.ExampleService) (req : httpserver.Request) (id : String)
    (hp : req.Path = "/items/" ++ id) (hm : req.Method = "GET")
    (hc : http.cleanPath req.Path = req.Path) :
    (id ≠ "" → '/' ∉ id.data →
      ((httpserver.NewRouter h (svc :: rest)).ServeHTTP req).calls =
          [.Get (some [("id", .str id)])] ∧
        (∀ item, svc.Get (some [("id", .str id)]) = .ok item →
          ((httpserver.NewRouter h (svc :: rest)).ServeHTTP req).w.status = some 200 ∧
          ((httpserver.NewRouter h (svc :: rest)).ServeHTTP req).w.body = [.map item]) ∧
        (∀ msg, svc.Get (some [("id", .str id)]) = .error msg →
          ((httpserver.NewRouter h (svc :: rest)).ServeHTTP req).w.status = some 404 ∧
          ((httpserver.NewRouter h (svc :: rest)).ServeHTTP req).w.body =
            [.map (some [("error", .str msg)])])) ∧
    ((id = "" ∨ '/' ∈ id.data) →
      ((httpserver.NewRouter h (svc :: rest)).ServeHTTP req).w.status = some 404 ∧
        ((httpserver.NewRouter h (svc :: rest)).ServeHTTP req).w.body = [] ∧
        ((httpserver.NewRouter h (svc :: rest)).ServeHTTP req).calls = []) := by
  have ht : strings.TrimPrefix req.Path "/items/" = id := by
    rw [hp, strings.TrimPrefix_append]
  rw [httpserver.ServeHTTP_item _ req id hp hc, httpserver.NewRouter_cons]
  unfold httpserver.Router.itemHandler
  simp only [ht, hm, httpserver.MethodGet, if_true]
  constructor
  · intro hid hsep
    have hg : ¬ (id = "" ∨ strings.Contains id "/" = true) := by
      rw [httpserver.item_guard]
      exact fun e => e.elim hid hsep
    simp only [hg, if_false]
    cases hget : svc.Get (some [("id", .str id)]) <;>
      simp [httpserver.ResponseWriter.Encode, httpserver.ResponseWriter.WriteHeader,
        httpserver.ResponseWriter.HeaderSet, httpserver.ResponseWriter.fresh,
        httpserver.StatusOK, httpserver.StatusNotFound]
  · intro hbad
    have hg : id = "" ∨ strings.Contains id "/" = true := (httpserver.item_guard id).mpr hbad
    simp only [hg, if_true]
    simp [httpserver.ResponseWriter.WriteHeader, httpserver.ResponseWriter.fresh,
      httpserver.StatusNotFound]

theorem httpserver.get_item_witness :
    ((httpserver.NewRouter (httpserver.fakeHealthService ⟨true, "", ""⟩)
        [httpserver.tableService [some [("id", .str "abc"), ("name", .str "x")]]]).ServeHTTP
        { Method := "GET", Path := "/items/abc", Query := [], Body := .failed "EOF" }).w.body =
        [.map (some [("id", .str "abc"), ("name", .str "x")])] ∧
    ((httpserver.NewRouter (httpserver.fakeHealthService ⟨true, "", ""⟩)
        [httpserver.tableService []]).ServeHTTP
        { Method := "GET", Path := "/items/abc", Query := [], Body := .failed "EOF" }).w.body =
        [.map (some [("error", .str "item not found")])] ∧
    ((httpserver.NewRouter (httpserver.fakeHealthService ⟨true, "", ""⟩)
        [httpserver.tableService []]).ServeHTTP
        { Method := "GET", Path := "/items/a/b", Query := [], Body := .failed "EOF" }).w.body =
        [] :=
  ⟨(((httpserver.get_item (httpserver.fakeHealthService ⟨true, "", ""⟩)
      (httpserver.tableService [some [("id", .str "abc"), ("name", .str "x")]]) []
      { Method := "GET", Path := "/items/abc", Query := [], Body := .failed "EOF" } "abc"
      rfl rfl (by decide)).1 (by decide) (by decide)).2.1 _ rfl).2,
   (((httpserver.get_item (httpserver.fakeHealthService ⟨true, "", ""⟩)
      (httpserver.tableService []) []
      { Method := "GET", Path := "/items/abc", Query := [], Body := .failed "EOF" } "abc"
      rfl rfl (by decide)).1 (by decide) (by decide)).2.2 _ rfl).2,
   ((httpserver.get_item (httpserver.fakeHealthService ⟨true, "", ""⟩)
      (httpserver.tableService []) []
      { Method := "GET", Path := "/items/a/b", Query := [], Body := .failed "EOF" } "a/b"
      rfl rfl (by decide)).2 (Or.inr (by decide))).2.1⟩

/-- C8, as stated, fails: with a CRUD service configured, `GET /items/`
(empty id) and `GET /items/a/b` (id with a path separator) answer 404 with
an empty body, not with a body of the form `{"error": message}`. -/
theorem httpserver.get_item_bad_id_has_no_body :
    (((httpserver.NewRouter (httpserver.fakeHealthService ⟨true, "", ""⟩)
        [httpserver.tableService []]).ServeHTTP
        { Method := "GET", Path := "/items/", Query := [], Body := .failed "EOF" }).w.status =
        some 404 ∧
      ((httpserver.NewRouter (httpserver.fakeHealthService ⟨true, "", ""⟩)
        [httpserver.tableService []]).ServeHTTP
        { Method := "GET", Path := "/items/", Query := [], Body := .failed "EOF" }).w.body =
        [] ∧
      ¬ ∃ msg, ((httpserver.NewRouter (httpserver.fakeHealthService ⟨true, "", ""⟩)
        [httpserver.tableService []]).ServeHTTP
        { Method := "GET", Path := "/items/", Query := [], Body := .failed "EOF" }).w.body =
        [.map (some [("error", .str msg)])]) ∧
    (((httpserver.NewRouter (httpserver.fakeHealthService ⟨true, "", ""⟩)
        [httpserver.tableService []]).ServeHTTP
        { Method := "GET", Path := "/items/a/b", Query := [], Body := .failed "EOF" }).w.status =
        some 404 ∧
      ((httpserver.NewRouter (httpserver.fakeHealthService ⟨true, "", ""⟩)
        [httpserver.tableService []]).ServeHTTP
        { Method := "GET", Path := "/items/a/b", Query := [], Body := .failed "EOF" }).w.body =
        [] ∧
      ¬ ∃ msg, ((httpserver.NewRouter (httpserver.fakeHealthService ⟨true, "", ""⟩)
        [httpserver.tableService []]).ServeHTTP
        { Method := "GET", Path := "/items/a/b", Query := [], Body := .failed "EOF" }).w.body =
        [.map (some [("error", .str msg)])]) := by
  refine ⟨⟨rfl, rfl, ?_⟩, ⟨rfl, rfl, ?_⟩⟩
  · rintro ⟨msg, hmsg⟩
    have hbody : ((httpserver.NewRouter (httpserver.fakeHealthService ⟨true, "", ""⟩)
        [httpserver.tableService []]).ServeHTTP
        { Method := "GET", Path := "/items/", Query := [], Body := .failed "EOF" }).w.body =
        [] := rfl
    rw [hbody] at hmsg
    exact List.noConfusion hmsg
  · rintro ⟨msg, hmsg⟩
    have hbody : ((httpserver.NewRouter (httpserver.fakeHealthService ⟨true, "", ""⟩)
        [httpserver.tableService []]).ServeHTTP
        { Method := "GET", Path := "/items/a/b", Query := [], Body := .failed "EOF" }).w.body =
        [] := rfl
    rw [hbody] at hmsg
    exact List.noConfusion hmsg

/-- Within the range of `int32` a positive parsed limit is passed on as is. -/
theorem httpserver.listLimit_in_range (req : httpserver.Request) (n : Int)
    (hn : strconv.Atoi (req.QueryGet "limit") = some n) (h0 : 0 < n) (h1 : n < 2 ^ 31) :
    httpserver.listLimit req = n := by
  have hv : req.QueryGet "limit" ≠ "" := by
    intro e
    rw [e] at hn
    have h2 : strconv.Atoi "" = none := by decide
    rw [h2] at hn
    exact Option.noConfusion hn
  unfold httpserver.listLimit
  simp only [hv, hn, ne_eq, not_false_eq_true, if_true]
  rw [if_pos h0]
  exact int32_of_small n (by omega) h1

/-- C9 at failing inputs: `GET /items?limit=2147483648` calls `List` with
the limit -2147483648 and `GET /items?limit=4294967296` calls it with the
limit 0; neither is strictly positive, and neither is the parsed number. -/
theorem httpserver.list_limit_wraps :
    ((httpserver.NewRouter (httpserver.fakeHealthService ⟨true, "", ""⟩)
        [httpserver.tableService []]).ServeHTTP
        { Method := "GET", Path := "/items", Query := [("limit", "2147483648")],
          Body := .failed "EOF" }).calls = [.List (-2147483648)] ∧
    ((httpserver.NewRouter (httpserver.fakeHealthService ⟨true, "", ""⟩)
        [httpserver.tableService []]).ServeHTTP
        { Method := "GET", Path := "/items", Query := [("limit", "4294967296")],
          Body := .failed "EOF" }).calls = [.List 0] ∧
    strconv.Atoi "2147483648" = some 2147483648 ∧
    strconv.Atoi "4294967296" = some 4294967296 := by
  refine ⟨?_, ?_, by decide, by decide⟩
  · have hl : httpserver.listLimit
        { Method := "GET", Path := "/items", Query := [("limit", "2147483648")],
          Body := .failed "EOF" } = -2147483648 := by decide
    have hg := (httpserver.itemsHandler_get (httpserver.fakeHealthService ⟨true, "", ""⟩)
      (httpserver.tableService [])
      { Method := "GET", Path := "/items", Query := [("limit", "2147483648")],
        Body := .failed "EOF" } rfl).1
    rw [hl] at hg
    exact hg
  · have hl : httpserver.listLimit
        { Method := "GET", Path := "/items", Query := [("limit", "4294967296")],
          Body := .failed "EOF" } = 0 := by decide
    have hg := (httpserver.itemsHandler_get (httpserver.fakeHealthService ⟨true, "", ""⟩)
      (httpserver.tableService [])
      { Method := "GET", Path := "/items", Query := [("limit", "4294967296")],
        Body := .failed "EOF" } rfl).1
    rw [hl] at hg
    exact hg

/-- C10 at a failing input: with a CRUD service configured, `PUT /items/abc`
whose body is the JSON literal `null` decodes without error to a nil map,
the assignment of the path id into it panics, and the handler ends without
a status, a body or a call to `Update`. -/
theorem httpserver.put_null_body_panics :
    ((httpserver.NewRouter (httpserver.fakeHealthService ⟨true, "", ""⟩)
        [httpserver.tableService []]).ServeHTTP
        { Method := "PUT", Path := "/items/abc", Query := [], Body := .value none }).panicked =
        true ∧
    ((httpserver.NewRouter (httpserver.fakeHealthService ⟨true, "", ""⟩)
        [httpserver.tableService []]).ServeHTTP
        { Method := "PUT", Path := "/items/abc", Query := [], Body := .value none }).w.status =
        none ∧
    ((httpserver.NewRouter (httpserver.fakeHealthService ⟨true, "", ""⟩)
        [httpserver.tableService []]).ServeHTTP
        { Method := "PUT", Path := "/items/abc", Query := [], Body := .value none }).calls = [] :=
  ⟨rfl, rfl, rfl⟩



/-- The error responses that carry a JSON body are written while the header
holds no `Content-Type`: `GET /items` without a CRUD service (404), `POST
/items` with an undecodable body (400), a failing `List` (500) and an absent
item (404); the handler of unmatched routes does set it before its 404. -/
theorem httpserver.error_paths_lack_content_type :
    (((httpserver.NewRouter (httpserver.fakeHealthService ⟨true, "", ""⟩) []).ServeHTTP
        { Method := "GET", Path := "/items", Query := [], Body := .failed "EOF" }).w.status =
        some 404 ∧
      ((httpserver.NewRouter (httpserver.fakeHealthService ⟨true, "", ""⟩) []).ServeHTTP
        { Method := "GET", Path := "/items", Query := [], Body := .failed "EOF" }).w.sentGet
          "Content-Type" = none) ∧
    (((httpserver.NewRouter (httpserver.fakeHealthService ⟨true, "", ""⟩)
        [httpserver.tableService []]).ServeHTTP
        { Method := "POST", Path := "/items", Query := [], Body := .failed "EOF" }).w.status =
        some 400 ∧
      ((httpserver.NewRouter (httpserver.fakeHealthService ⟨true, "", ""⟩)
        [httpserver.tableService []]).ServeHTTP
        { Method := "POST", Path := "/items", Query := [], Body := .failed "EOF" }).w.sentGet
          "Content-Type" = none) ∧
    (((httpserver.NewRouter (httpserver.fakeHealthService ⟨true, "", ""⟩)
        [httpserver.failingService "table missing"]).ServeHTTP
        { Method := "GET", Path := "/items", Query := [], Body := .failed "EOF" }).w.status =
        some 500 ∧
      ((httpserver.NewRouter (httpserver.fakeHealthService ⟨true, "", ""⟩)
        [httpserver.failingService "table missing"]).ServeHTTP
        { Method := "GET", Path := "/items", Query := [], Body := .failed "EOF" }).w.sentGet
          "Content-Type" = none) ∧
    (((httpserver.NewRouter (httpserver.fakeHealthService ⟨true, "", ""⟩)
        [httpserver.tableService []]).ServeHTTP
        { Method := "GET", Path := "/items/abc", Query := [], Body := .failed "EOF" }).w.status =
        some 404 ∧
      ((httpserver.NewRouter (httpserver.fakeHealthService ⟨true, "", ""⟩)
        [httpserver.tableService []]).ServeHTTP
        { Method := "GET", Path := "/items/abc", Query := [], Body := .failed "EOF" }).w.sentGet
          "Content-Type" = none) ∧
    ((httpserver.NewRouter (httpserver.fakeHealthService ⟨true, "", ""⟩) []).ServeHTTP
        { Method := "GET", Path := "/unknown", Query := [], Body := .failed "EOF" }).w.sentGet
          "Content-Type" = some "application/json" :=
  ⟨⟨rfl, rfl⟩, ⟨rfl, rfl⟩, ⟨rfl, rfl⟩, ⟨rfl, rfl⟩, rfl⟩


namespace httpserver

theorem healthHandler_content_type (r : Router) (req : Request) :
    (((r.healthHandler ResponseWriter.fresh req).w.status = some 200 ∨
        (r.healthHandler ResponseWriter.fresh req).w.status = some 201 ∨
        (r.healthHandler ResponseWriter.fresh req).w.status = some 503) →
      (r.healthHandler ResponseWriter.fresh req).w.sentGet "Content-Type" =
        some "application/json") ∧
    ((r.healthHandler ResponseWriter.fresh req).w.body = [] →
      (r.healthHandler ResponseWriter.fresh req).w.sentGet "Content-Type" = none) := by
  unfold Router.healthHandler
  simp only [MethodGet]
  by_cases hm : req.Method = "GET"
  · cases hok : (r.healthSvc.Check ()).OK <;>
      simp [hm, hok, ResponseWriter.Encode, ResponseWriter.WriteHeader, ResponseWriter.HeaderSet,
        ResponseWriter.fresh, ResponseWriter.sentGet, StatusOK, StatusServiceUnavailable,
        hContentType, vApplicationJSON]
  · simp [hm, ResponseWriter.WriteHeader, ResponseWriter.fresh, ResponseWriter.sentGet,
      StatusMethodNotAllowed]

theorem itemsHandler_content_type (r : Router) (req : Request) :
    (((r.itemsHandler ResponseWriter.fresh req).w.status = some 200 ∨
        (r.itemsHandler ResponseWriter.fresh req).w.status = some 201 ∨
        (r.itemsHandler ResponseWriter.fresh req).w.status = some 503) →
      (r.itemsHandler ResponseWriter.fresh req).w.sentGet "Content-Type" =
        some "application/json") ∧
    ((r.itemsHandler ResponseWriter.fresh req).w.body = [] →
      (r.itemsHandler ResponseWriter.fresh req).w.sentGet "Content-Type" = none) := by
  unfold Router.itemsHandler
  simp only [MethodGet, MethodPost]
  cases hs : r.exampleSvc with
  | none =>
    simp [ResponseWriter.Encode, ResponseWriter.WriteHeader, ResponseWriter.fresh,
      ResponseWriter.sentGet, StatusNotFound]
  | some svc =>
    by_cases hg : req.Method = "GET"
    · cases hl : svc.List (listLimit req) <;>
        simp [hg, hl, ResponseWriter.Encode, ResponseWriter.WriteHeader,
          ResponseWriter.HeaderSet, ResponseWriter.fresh, ResponseWriter.sentGet, StatusOK,
          StatusInternalServerError, hContentType, vApplicationJSON]
    · by_cases hpost : req.Method = "POST"
      · cases hb : req.Body with
        | failed e =>
          simp [hpost, ResponseWriter.Encode, ResponseWriter.WriteHeader,
            ResponseWriter.fresh, ResponseWriter.sentGet, StatusBadRequest]
        | value item =>
          cases hc : svc.Create item <;>
            simp [hpost, hc, ResponseWriter.Encode, ResponseWriter.WriteHeader,
              ResponseWriter.HeaderSet, ResponseWriter.fresh, ResponseWriter.sentGet,
              StatusCreated, StatusInternalServerError, hContentType, vApplicationJSON]
      · simp [hg, hpost, ResponseWriter.WriteHeader, ResponseWriter.fresh,
          ResponseWriter.sentGet, StatusMethodNotAllowed]

theorem itemHandler_content_type (r : Router) (req : Request) :
    (((r.itemHandler ResponseWriter.fresh req).w.status = some 200 ∨
        (r.itemHandler ResponseWriter.fresh req).w.status = some 201 ∨
        (r.itemHandler ResponseWriter.fresh req).w.status = some 503) →
      (r.itemHandler ResponseWriter.fresh req).w.sentGet "Content-Type" =
        some "application/json") ∧
    ((r.itemHandler ResponseWriter.fresh req).w.body = [] →
      (r.itemHandler ResponseWriter.fresh req).w.sentGet "Content-Type" = none) := by
  unfold Router.itemHandler
  simp only [MethodGet, MethodPut, MethodDelete]
  cases hs : r.exampleSvc with
  | none =>
    simp [ResponseWriter.Encode, ResponseWriter.WriteHeader, ResponseWriter.fresh,
      ResponseWriter.sentGet, StatusNotFound]
  | some svc =>
    by_cases hbad : strings.TrimPrefix req.Path "/items/" = "" ∨
        strings.Contains (strings.TrimPrefix req.Path "/items/") "/" = true
    · simp [hbad, ResponseWriter.WriteHeader, ResponseWriter.fresh, ResponseWriter.sentGet,
        StatusNotFound]
    · simp only [hbad, if_false]
      by_cases hg : req.Method = "GET"
      · cases hl : svc.Get (some [("id", .str (strings.TrimPrefix req.Path "/items/"))]) <;>
          simp [hg, hl, ResponseWriter.Encode, ResponseWriter.WriteHeader,
            ResponseWriter.HeaderSet, ResponseWriter.fresh, ResponseWriter.sentGet, StatusOK,
            StatusNotFound, hContentType, vApplicationJSON]
      · by_cases hput : req.Method = "PUT"
        · cases hb : req.Body with
          | failed e =>
            simp [hput, ResponseWriter.Encode, ResponseWriter.WriteHeader,
              ResponseWriter.fresh, ResponseWriter.sentGet, StatusBadRequest]
          | value item =>
            cases item with
            | none => simp [hput, GoMap.assign, ResponseWriter.fresh, ResponseWriter.sentGet]
            | some kv =>
              cases hc : svc.Update (some (assignKV "id"
                  (.str (strings.TrimPrefix req.Path "/items/")) kv)) <;>
                simp [hput, hc, GoMap.assign, ResponseWriter.Encode,
                  ResponseWriter.WriteHeader, ResponseWriter.HeaderSet, ResponseWriter.fresh,
                  ResponseWriter.sentGet, StatusOK, StatusInternalServerError, hContentType,
                  vApplicationJSON]
        · by_cases hdel : req.Method = "DELETE"
          · cases hc : svc.Delete (some [("id", .str (strings.TrimPrefix req.Path "/items/"))]) <;>
              simp [hdel, hc, ResponseWriter.Encode, ResponseWriter.WriteHeader,
                ResponseWriter.fresh, ResponseWriter.sentGet, StatusNoContent,
                StatusInternalServerError]
          · simp [hg, hput, hdel, ResponseWriter.WriteHeader, ResponseWriter.fresh,
              ResponseWriter.sentGet, StatusMethodNotAllowed]

end httpserver

/-- The mux's redirect writes the status it is given. -/
theorem httpserver.Redirect_status (req : httpserver.Request) (target : String) (code : Nat) :
    (httpserver.Redirect httpserver.ResponseWriter.fresh req target code).w.status =
      some code := by
  unfold httpserver.Redirect
  by_cases h1 : req.Method = "GET" <;> by_cases h2 : req.Method = "HEAD" <;>
    simp [h1, h2, httpserver.ResponseWriter.Encode, httpserver.ResponseWriter.WriteHeader,
      httpserver.ResponseWriter.HeaderSet, httpserver.ResponseWriter.fresh]

/-- C7, as the code and its mux have it. Every response whose status is 200,
201 or 503 has `Content-Type: application/json` in the header at the moment
the status is written, and so has the 404 given to a request whose path is
in canonical form and matches no route; a response the router's handlers
write without a body (405, 204, the 404 for an empty id or an id with a path
separator), the path being in canonical form, is written with no
`Content-Type`. -/
theorem httpserver.content_type_by_outcome (h : health.Service)
    (svcs : List httpserver.ExampleService) (req : httpserver.Request) :
    ((((httpserver.NewRouter h svcs).ServeHTTP req).w.status = some 200 ∨
        ((httpserver.NewRouter h svcs).ServeHTTP req).w.status = some 201 ∨
        ((httpserver.NewRouter h svcs).ServeHTTP req).w.status = some 503) →
      ((httpserver.NewRouter h svcs).ServeHTTP req).w.sentGet "Content-Type" =
        some "application/json") ∧
    (http.cleanPath req.Path = req.Path →
      req.Path ≠ "/health" → req.Path ≠ "/items" →
      strings.HasPrefix req.Path "/items/" = false →
      ((httpserver.NewRouter h svcs).ServeHTTP req).w.status = some 404 ∧
        ((httpserver.NewRouter h svcs).ServeHTTP req).w.sentGet "Content-Type" =
          some "application/json") ∧
    (http.cleanPath req.Path = req.Path →
      ((httpserver.NewRouter h svcs).ServeHTTP req).w.body = [] →
      ((httpserver.NewRouter h svcs).ServeHTTP req).w.sentGet "Content-Type" = none) := by
  refine ⟨?_, ?_, ?_⟩
  · unfold httpserver.Router.ServeHTTP
    split
    · intro hs
      rw [httpserver.Redirect_status] at hs
      simp [httpserver.StatusTemporaryRedirect] at hs
    · split
      · exact (httpserver.healthHandler_content_type _ req).1
      · split
        · exact (httpserver.itemsHandler_content_type _ req).1
        · split
          · exact (httpserver.itemHandler_content_type _ req).1
          · intro _
            rfl
  · intro hc h1 h2 h3
    rw [httpserver.fallback_exchange _ req hc h1 h2 h3]
    exact ⟨rfl, rfl⟩
  · intro hc
    rw [httpserver.ServeHTTP_dispatch _ req hc]
    split
    · exact (httpserver.healthHandler_content_type _ req).2
    · split
      · exact (httpserver.itemsHandler_content_type _ req).2
      · split
        · exact (httpserver.itemHandler_content_type _ req).2
        · intro hb
          exact absurd hb (by simp [httpserver.notFoundHandler, httpserver.ResponseWriter.Encode,
            httpserver.ResponseWriter.WriteHeader, httpserver.ResponseWriter.HeaderSet,
            httpserver.ResponseWriter.fresh])

theorem httpserver.content_type_by_outcome_witness :
    ((httpserver.NewRouter (httpserver.fakeHealthService ⟨false, "down", ""⟩) []).ServeHTTP
        { Method := "GET", Path := "/health", Query := [], Body := .failed "EOF" }).w.sentGet
          "Content-Type" = some "application/json" ∧
    ((httpserver.NewRouter (httpserver.fakeHealthService ⟨true, "", ""⟩) []).ServeHTTP
        { Method := "GET", Path := "/unknown", Query := [], Body := .failed "EOF" }).w.sentGet
          "Content-Type" = some "application/json" ∧
    ((httpserver.NewRouter (httpserver.fakeHealthService ⟨true, "", ""⟩)
        [httpserver.tableService []]).ServeHTTP
        { Method := "PATCH", Path := "/items", Query := [], Body := .failed "EOF" }).w.sentGet
          "Content-Type" = none :=
  ⟨(httpserver.content_type_by_outcome (httpserver.fakeHealthService ⟨false, "down", ""⟩) []
      { Method := "GET", Path := "/health", Query := [], Body := .failed "EOF" }).1
      (Or.inr (Or.inr rfl)),
   ((httpserver.content_type_by_outcome (httpserver.fakeHealthService ⟨true, "", ""⟩) []
      { Method := "GET", Path := "/unknown", Query := [], Body := .failed "EOF" }).2.1
      (by decide) (by decide) (by decide) (by decide)).2,
   (httpserver.content_type_by_outcome (httpserver.fakeHealthService ⟨true, "", ""⟩)
      [httpserver.tableService []]
      { Method := "PATCH", Path := "/items", Query := [], Body := .failed "EOF" }).2.2
      (by decide) rfl⟩

/-- C7, as stated, fails: a successful `DELETE /items/abc` writes status 204
and `POST /health` writes status 405 while the header holds no
`Content-Type`. -/
theorem httpserver.bodiless_status_without_content_type :
    (((httpserver.NewRouter (httpserver.fakeHealthService ⟨true, "", ""⟩)
        [httpserver.tableService []]).ServeHTTP
        { Method := "DELETE", Path := "/items/abc", Query := [], Body := .failed "EOF" }).w.status =
        some 204 ∧
      ((httpserver.NewRouter (httpserver.fakeHealthService ⟨true, "", ""⟩)
        [httpserver.tableService []]).ServeHTTP
        { Method := "DELETE", Path := "/items/abc", Query := [],
          Body := .failed "EOF" }).w.sentGet "Content-Type" ≠ some "application/json") ∧
    (((httpserver.NewRouter (httpserver.fakeHealthService ⟨true, "", ""⟩) []).ServeHTTP
        { Method := "POST", Path := "/health", Query := [], Body := .failed "EOF" }).w.status =
        some 405 ∧
      ((httpserver.NewRouter (httpserver.fakeHealthService ⟨true, "", ""⟩) []).ServeHTTP
        { Method := "POST", Path := "/health", Query := [],
          Body := .failed "EOF" }).w.sentGet "Content-Type" ≠ some "application/json") :=
  ⟨⟨rfl, by decide⟩, ⟨rfl, by decide⟩⟩
